import Mathlib

/-!
Shallow embedding of the prediction-and-accumulator engine of
`src/ai_service/predictor.py` (class `Predictor`), together with theorems
settling the frozen claims C1..C10 about it.

Modelling conventions:
* Python floats are modelled as rationals (ℚ); arithmetic is exact.
* Python `round(x, n)` is modelled as `round2`/`round3` below using Mathlib's
  `round` (half-up).  Python uses banker's rounding for exact ties; no concrete
  input used in a theorem below sits on a tie, and tolerance lemmas are
  insensitive to the tie rule.
* Fallible Python code (KeyError on a missing dict key, ZeroDivisionError)
  is modelled with `Option`: `none` is an escaping exception.  A `try/except`
  block becomes a `match`/`Option.orElse` on the body's result.
* `scipy.stats.poisson.pmf` is transcendental, hence not a rational function;
  the statistical football path takes it as an explicit function parameter
  `pois : ℚ → ℚ` standing for `fun xg => poisson.pmf 5 xg` (only the value at
  5 survives the source's loop, see `statBody` below).
* The time-dependent fields `id`/`createdAt` of accumulators and the
  free-text `confidence_explanation` field are omitted: no claim mentions
  them and they depend on the wall clock.
* The `CorrectScore` (football) and `Spread`/`PredictedScore` (basketball)
  sub-markets are omitted from the serialized record: no claim mentions them,
  and they depend on the transcendental pmf / on tie-sensitive rounding.
* The repository ships no trained model artifacts (`models/` is absent), so
  `predict_football_match` reduces to `_statistical_football_prediction`;
  the trained 1X2 path (lines 271-307) is modelled separately by
  `mapClasses`/`trainedConfidence` over abstract classifier probabilities.
-/

/-- Python `round(x, 2)` on a rational. -/
def round2 (x : ℚ) : ℚ := (round (x * 100) : ℤ) / 100

/-- Python `round(x, 3)` on a rational. -/
def round3 (x : ℚ) : ℚ := (round (x * 1000) : ℤ) / 1000

/-- Quality tiers, `Tier 1` strongest (predictor.py uses the strings
"Tier 1", "Tier 2", "Tier 5", "Tier 10"). -/
inductive Tier where
  | t1 | t2 | t5 | t10
  deriving DecidableEq, Repr

/-- Football form score: W=3, D=1, otherwise 0 (predictor.py lines 451-452). -/
def formValue (form : String) : ℚ :=
  (form.toList.map (fun c => if c = 'W' then (3 : ℚ) else if c = 'D' then 1 else 0)).sum

/-- Basketball form score: W=1, otherwise 0 (predictor.py lines 816-817). -/
def formValueBB (form : String) : ℚ :=
  (form.toList.map (fun c => if c = 'W' then (1 : ℚ) else 0)).sum

/-- Team record as consumed by the predictor; every field read through
Python `.get` with a default is optional here. -/
structure Team where
  name : Option String := none
  ranking : Option ℤ := none
  form : Option String := none
  offense : Option ℚ := none
  defense : Option ℚ := none
  deriving DecidableEq, Repr

/-- Match/game record (the input dict).  Fields read with `['key']` raise on
absence, fields read with `.get` have defaults; both are `Option` here and
the reader decides. -/
structure MatchData where
  id : Option String := none
  homeTeam : Option Team := none
  awayTeam : Option Team := none
  startTime : Option String := none
  leagueName : Option String := none
  oddsHome : Option ℚ := none
  oddsDraw : Option ℚ := none
  oddsAway : Option ℚ := none
  deriving DecidableEq, Repr

/-- Predicted 1X2 outcome (predictor.py lines 291 and 481):
`'H' if home_prob > max(draw_prob, away_prob) else 'D' if draw_prob > away_prob else 'A'`. -/
def chooseOutcome (h d a : ℚ) : String :=
  if h > max d a then "H" else if d > a then "D" else "A"

/-- Probability of a given outcome code among the three 1X2 probabilities. -/
def probOf3 (o : String) (h d a : ℚ) : ℚ :=
  if o = "H" then h else if o = "D" then d else a

/-- Odds of a given outcome code among the three 1X2 odds. -/
def oddsOf3 (o : String) (oH oD oA : ℚ) : ℚ :=
  if o = "H" then oH else if o = "D" then oD else oA

/-- Label-based mapping of classifier class probabilities to the
(home, draw, away) triple (predictor.py lines 278-288). -/
def mapClasses (cs : List (String × ℚ)) : ℚ × ℚ × ℚ :=
  cs.foldl
    (fun acc cp =>
      if cp.1 = "H" then (cp.2, acc.2.1, acc.2.2)
      else if cp.1 = "D" then (acc.1, cp.2, acc.2.2)
      else if cp.1 = "A" then (acc.1, acc.2.1, cp.2)
      else acc)
    (0, 0, 0)

/-- Confidence of the trained 1X2 path as serialized (lines 294 and 392). -/
def trainedConfidence (h d a : ℚ) : ℚ := round2 (max h (max d a) * 100)

/-- Serialized per-outcome percentage of the trained 1X2 path (lines 399-408). -/
def servePct (p : ℚ) : ℚ := round2 (p * 100)

/-- Value bet attached to a prediction.  The football path stores
edge and tier; the basketball path stores neither (so they are optional,
matching `value_bet.get('tier', 'Tier 10')` downstream). -/
structure ValueBet where
  outcome : String
  odds : ℚ
  value : ℚ
  edge : Option ℚ := none
  tier : Option Tier := none
  isRecommended : Bool
  deriving DecidableEq, Repr

/-- Serialized 1X2 market entry (probabilities already in percent). -/
structure OneXTwo where
  outcome : String
  homeProb : ℚ
  homeOdds : ℚ
  drawProb : ℚ
  drawOdds : ℚ
  awayProb : ℚ
  awayOdds : ℚ
  deriving DecidableEq, Repr

/-- Serialized basketball Winner market entry. -/
structure WinnerM where
  outcome : String
  homeProb : ℚ
  homeOdds : ℚ
  awayProb : ℚ
  awayOdds : ℚ
  deriving DecidableEq, Repr

/-- Serialized prediction.  As an element of an accumulator pool every field
is optional (the accumulator reads them all through `.get`). -/
structure Prediction where
  matchId : Option String := none
  homeTeam : Option String := none
  awayTeam : Option String := none
  league : Option String := none
  startTime : Option String := none
  sport : Option String := none
  predictedOutcome : Option String := none
  confidence : Option ℚ := none
  isPremium : Bool := false
  valueBet : Option ValueBet := none
  m1x2 : Option OneXTwo := none
  winner : Option WinnerM := none
  btts : Option (String × ℚ) := none
  overUnder : Option (ℚ × String × ℚ) := none
  deriving DecidableEq, Repr

/-- Value percentage of an outcome: edge over implied probability, 0 when the
implied probability is not positive (predictor.py line 729). -/
def vpct (p o : ℚ) : ℚ :=
  if 0 < 1 / o then ((p - 1 / o) / (1 / o)) * 100 else 0

/-- Tier classification from unrounded value percentage, edge and odds
(predictor.py lines 735-761, including the final Tier 1 override). -/
def tierFor (v e o : ℚ) : Tier :=
  let base :=
    if 15 < v ∧ 3/20 < e then
      (if o < 2 then Tier.t2 else if o < 7/2 then Tier.t2 else Tier.t5)
    else if 10 < v ∧ 1/10 < e then
      (if o < 5/2 then Tier.t2 else if o < 4 then Tier.t5 else Tier.t10)
    else if 5 < v ∧ 1/20 < e then
      (if o < 3 then Tier.t5 else Tier.t10)
    else Tier.t10
  if 20 < v ∧ 1/5 < e ∧ o < 9/5 then Tier.t1 else base

/-- Football value-bet computation (`_calculate_value_bet`, lines 714-792).
Returns `none` both for "no value" and for the caught ZeroDivisionError on a
zero odds value (the whole body is wrapped in `try/except -> None`).
Negative odds give a non-positive implied probability and value 0. -/
def calcValueBet (predicted : String) (h d a oH oD oA : ℚ) : Option ValueBet :=
  if oH = 0 ∨ oD = 0 ∨ oA = 0 then none
  else
    let vH := round2 (vpct h oH)
    let vD := round2 (vpct d oD)
    let vA := round2 (vpct a oA)
    let mk : String → ℚ → ℚ → ℚ → Bool → ValueBet := fun o p od v rec =>
      { outcome := o, odds := od, value := v,
        edge := some (round3 (p - 1 / od)),
        tier := some (tierFor (vpct p od) (p - 1 / od) od),
        isRecommended := rec }
    let bestO := if vD ≤ vH ∧ vA ≤ vH then "H" else if vA ≤ vD then "D" else "A"
    let bestV := probOf3 bestO vH vD vA
    if 5 < bestV then
      some (mk bestO (probOf3 bestO h d a) (oddsOf3 bestO oH oD oA) bestV (decide (10 < bestV)))
    else
      let pv := probOf3 predicted vH vD vA
      if 0 < pv then
        some (mk predicted (probOf3 predicted h d a) (oddsOf3 predicted oH oD oA) pv false)
      else none

/-- Football team strengths (predictor.py lines 455-459); the home side gets
the 1.2 rank factor and the 1.3 home-advantage multiplier. -/
def homeStrengthF (t : Team) : ℚ :=
  ((21 - (t.ranking.getD 10 : ℤ)) * (6/5) + formValue (t.form.getD "WDLWW") / 5) * (13/10)

/-- Away football team strength (predictor.py line 456). -/
def awayStrengthF (t : Team) : ℚ :=
  (21 - (t.ranking.getD 10 : ℤ)) + formValue (t.form.getD "WDLWW") / 5

/-- Draw probability before the floor adjustment (predictor.py line 465). -/
def preDraw (hs aS : ℚ) : ℚ := 1 - hs / (hs + aS) - aS / (hs + aS)

/-- Outcome probabilities of the statistical football path
(predictor.py lines 461-472): shares of total strength, then the 0.15 draw
floor with the deficit removed from home first and then from away using the
already-updated home share.  `none` models a ZeroDivisionError. -/
def stat1X2 (hs aS : ℚ) : Option (ℚ × ℚ × ℚ) :=
  let T := hs + aS
  if T = 0 then none
  else
    let h0 := hs / T
    let a0 := aS / T
    let d0 := 1 - h0 - a0
    if d0 < 3/20 then
      let adj := 3/20 - d0
      if h0 + a0 = 0 then none
      else
        let h1 := h0 - adj * (h0 / (h0 + a0))
        if h1 + a0 = 0 then none
        else
          let a1 := a0 - adj * (a0 / (h1 + a0))
          some (h1, 3/20, a1)
    else some (h0, d0, a0)

/-- Heuristic BTTS probability from the two rankings (lines 499-509). -/
def bttsProbF (hr ar : ℤ) : ℚ :=
  if |hr - ar| < 5 then 13/20
  else if min hr ar < 5 then 7/10
  else if 15 < max hr ar then 2/5
  else 1/2

/-- Heuristic Over/Under probability from the two rankings (lines 513-523). -/
def overProbF (hr ar : ℤ) : ℚ :=
  if hr < 5 ∧ 15 < ar then 7/10
  else if hr < 10 ∧ ar < 10 then 11/20
  else if 15 < hr ∧ 15 < ar then 9/20
  else 1/2

/-- Body of `_statistical_football_prediction` (lines 439-593).
`pois` stands for `fun xg => scipy.stats.poisson.pmf 5 xg`.  NOTE the faithful
modelling of the source's variable clobbering: the correct-score loop
(lines 537-541) reassigns `home_prob`/`away_prob`, so after the loop they hold
`poisson.pmf(5, home_xg)` and `poisson.pmf(5, away_xg)`, and it is THOSE
values that lines 564-575 serialize as the 1X2 percentages, while
`predicted_outcome`, `confidence` and the value bet were computed earlier
from the genuine probabilities. -/
def statBody (pois : ℚ → ℚ) (m : MatchData) : Option Prediction :=
  match m.homeTeam, m.awayTeam with
  | some ht, some aw =>
    let hs := homeStrengthF ht
    let aS := awayStrengthF aw
    match stat1X2 hs aS with
    | none => none
    | some (h, d, a) =>
      let oH := m.oddsHome.getD 2
      let oD := m.oddsDraw.getD (7/2)
      let oA := m.oddsAway.getD 4
      let outc := chooseOutcome h d a
      let conf := max h (max d a) * 100
      let vb := calcValueBet outc h d a oH oD oA
      let hr := (ht.ranking.getD 10 : ℤ)
      let ar := (aw.ranking.getD 10 : ℤ)
      let bp := bttsProbF hr ar
      let op := overProbF hr ar
      let hxg := max (1/2) (hs / 10)
      let axg := max (3/10) (aS / 12)
      let hProbClobbered := pois hxg
      let aProbClobbered := pois axg
      match m.id, ht.name, aw.name, m.startTime, m.leagueName with
      | some i, some hn, some an, some st, some lg =>
        some { matchId := some i, homeTeam := some hn, awayTeam := some an,
               league := some lg, startTime := some st, sport := some "football",
               predictedOutcome := some outc,
               confidence := some (round2 conf),
               isPremium := decide (80 < conf),
               valueBet := vb,
               m1x2 := some { outcome := outc,
                              homeProb := round2 (hProbClobbered * 100), homeOdds := oH,
                              drawProb := round2 (d * 100), drawOdds := oD,
                              awayProb := round2 (aProbClobbered * 100), awayOdds := oA },
               winner := none,
               btts := some (if 1/2 < bp then "Yes" else "No", round2 (bp * 100)),
               overUnder := some (5/2, if 1/2 < op then "Over" else "Under", round2 (op * 100)) }
      | _, _, _, _, _ => none
  | _, _ => none

/-- Minimal degraded football prediction emitted when the statistical body
throws (lines 598-620).  It still dereferences id, both team names, the
start time and the league name, so it raises itself when any is missing. -/
def statFallback (m : MatchData) : Option Prediction :=
  match m.id, m.homeTeam, m.awayTeam, m.startTime, m.leagueName with
  | some i, some ht, some aw, some st, some lg =>
    match ht.name, aw.name with
    | some hn, some an =>
      some { matchId := some i, homeTeam := some hn, awayTeam := some an,
             league := some lg, startTime := some st, sport := some "football",
             predictedOutcome := some "H",
             confidence := some 60,
             isPremium := false,
             valueBet := none,
             m1x2 := some { outcome := "H",
                            homeProb := 60, homeOdds := 9/5,
                            drawProb := 25, drawOdds := 7/2,
                            awayProb := 15, awayOdds := 9/2 },
             winner := none, btts := none, overUnder := none }
    | _, _ => none
  | _, _, _, _, _ => none

/-- `_statistical_football_prediction` with its try/except: body, else the
minimal fallback, whose own exception escapes as `none`. -/
def statisticalFootball (pois : ℚ → ℚ) (m : MatchData) : Option Prediction :=
  match statBody pois m with
  | some p => some p
  | none => statFallback m

/-- Basketball team strength for the home side (lines 826-830, with the 1.2
home-advantage multiplier). -/
def homeStrengthB (t : Team) : ℚ :=
  ((16 - (t.ranking.getD 8 : ℤ)) + formValueBB (t.form.getD "") / 5
    + (t.offense.getD 110 - t.defense.getD 105) / 10) * (6/5)

/-- Basketball team strength for the away side (line 827). -/
def awayStrengthB (t : Team) : ℚ :=
  (16 - (t.ranking.getD 8 : ℤ)) + formValueBB (t.form.getD "") / 5
    + (t.offense.getD 108 - t.defense.getD 107) / 10

/-- Basketball winner probabilities (lines 833-835): home share of total
strength, away is its complement.  `none` models the ZeroDivisionError. -/
def bbProbs (hs aS : ℚ) : Option (ℚ × ℚ) :=
  let T := hs + aS
  if T = 0 then none else some (hs / T, 1 - hs / T)

/-- Basketball value-bet logic (lines 849-865).  Outer `none` is an escaping
ZeroDivisionError (odds of 0); `some none` is "no value bet".  The stored
value is the raw edge times 100 (NOT divided by the implied probability). -/
def bbVB (h a oH oA : ℚ) : Option (Option ValueBet) :=
  if oH = 0 then none
  else if 1 / oH < h then
    let v := (h - 1 / oH) * 100
    some (some { outcome := "H", odds := oH, value := round2 v,
                 isRecommended := decide (5 < v) })
  else if oA = 0 then none
  else if 1 / oA < a then
    let v := (a - 1 / oA) * 100
    some (some { outcome := "A", odds := oA, value := round2 v,
                 isRecommended := decide (5 < v) })
  else some none

/-- Body of `predict_basketball_game` (lines 804-937). -/
def bbBody (g : MatchData) : Option Prediction :=
  match g.homeTeam, g.awayTeam with
  | some ht, some aw =>
    let hs := homeStrengthB ht
    let aS := awayStrengthB aw
    match bbProbs hs aS with
    | none => none
    | some (h, a) =>
      let oH := g.oddsHome.getD (9/5)
      let oA := g.oddsAway.getD (11/5)
      let outc := if a < h then "H" else "A"
      let conf := max h a * 100
      match bbVB h a oH oA with
      | none => none
      | some vb =>
        match g.id, ht.name, aw.name, g.startTime, g.leagueName with
        | some i, some hn, some an, some st, some lg =>
          let line : ℚ := if lg = "NBA" then 441/2 else 321/2
          let hPts := (ht.offense.getD 110 - aw.defense.getD 107)
            + (if lg = "NBA" then (50 : ℚ) else 35)
          let aPts := (aw.offense.getD 108 - ht.defense.getD 105)
            + (if lg = "NBA" then (45 : ℚ) else 32)
          let total := hPts + aPts
          let op : ℚ := if line < total then 13/20 else 7/20
          some { matchId := some i, homeTeam := some hn, awayTeam := some an,
                 league := some lg, startTime := some st, sport := some "basketball",
                 predictedOutcome := some outc,
                 confidence := some (round2 conf),
                 isPremium := decide (75 < conf),
                 valueBet := vb,
                 m1x2 := none,
                 winner := some { outcome := outc,
                                  homeProb := round2 (h * 100), homeOdds := oH,
                                  awayProb := round2 (a * 100), awayOdds := oA },
                 btts := none,
                 overUnder := some (line, if 1/2 < op then "Over" else "Under", round2 (op * 100)) }
        | _, _, _, _, _ => none
  | _, _ => none

/-- Minimal degraded basketball prediction (lines 943-963). -/
def bbFallback (g : MatchData) : Option Prediction :=
  match g.id, g.homeTeam, g.awayTeam, g.startTime, g.leagueName with
  | some i, some ht, some aw, some st, some lg =>
    match ht.name, aw.name with
    | some hn, some an =>
      some { matchId := some i, homeTeam := some hn, awayTeam := some an,
             league := some lg, startTime := some st, sport := some "basketball",
             predictedOutcome := some "H",
             confidence := some 60,
             isPremium := false,
             valueBet := none,
             m1x2 := none,
             winner := some { outcome := "H",
                              homeProb := 60, homeOdds := 8/5,
                              awayProb := 40, awayOdds := 12/5 },
             btts := none, overUnder := none }
    | _, _ => none
  | _, _, _, _, _ => none

/-- `predict_basketball_game` with its try/except. -/
def basketballPredict (g : MatchData) : Option Prediction :=
  match bbBody g with
  | some p => some p
  | none => bbFallback g

/-- `predict_matches` (lines 965-1002): per-match try/except, a match whose
prediction raises is logged and skipped; unsupported sports are skipped. -/
def predictMatches (pois : ℚ → ℚ) (sport : String) (ms : List MatchData) : List Prediction :=
  ms.filterMap (fun m =>
    if sport = "football" then statisticalFootball pois m
    else if sport = "basketball" then basketballPredict m
    else none)

/-- Confidence banding of `_calculate_confidence_score` (lines 686-695). -/
def confidenceLevel (c : ℚ) : String :=
  if 85 ≤ c then "very high"
  else if 70 ≤ c then "high"
  else if 55 ≤ c then "medium"
  else if 40 ≤ c then "low"
  else "very low"

/-- Modelled from the spec: the documented confidence banding of section 4.4
(at least 85 very high, at least 70 high, at least 55 medium, at least 40
low, otherwise very low), written independently for the refinement check. -/
def specConfidenceLevel (c : ℚ) : String :=
  if c < 40 then "very low"
  else if c < 55 then "low"
  else if c < 70 then "medium"
  else if c < 85 then "high"
  else "very high"

/-- One leg of an accumulator (lines 1107-1120). -/
structure Selection where
  matchId : Option String := none
  homeTeam : Option String := none
  awayTeam : Option String := none
  league : Option String := none
  startTime : Option String := none
  sport : Option String := none
  market : String
  outcome : Option String := none
  odds : ℚ
  confidence : Option ℚ := none
  tier : Tier
  deriving DecidableEq, Repr

/-- Accumulator record (lines 1138-1149); the wall-clock id and createdAt
fields are omitted (see the module docstring). -/
structure Accumulator where
  size : ℕ
  tier : Tier
  totalOdds : ℚ
  confidence : ℚ
  averageValue : ℚ
  averageEdge : ℚ
  selections : List Selection
  isPremium : Bool
  deriving DecidableEq, Repr

/-- Confidence of a pool entry, `pred.get('confidence', 0)`. -/
def confOf (p : Prediction) : ℚ := p.confidence.getD 0

/-- Market odds for the chosen outcome with the sport-typical defaults
(lines 1075-1089); any outcome other than H (or D for football) falls into
the final `else` branch, exactly as in the source. -/
def defOdds (sport : String) (o : Option String) (p : Prediction) : ℚ :=
  if sport = "football" then
    if o = some "H" then (p.m1x2.map OneXTwo.homeOdds).getD 2
    else if o = some "D" then (p.m1x2.map OneXTwo.drawOdds).getD (7/2)
    else (p.m1x2.map OneXTwo.awayOdds).getD 4
  else
    if o = some "H" then (p.winner.map WinnerM.homeOdds).getD (9/5)
    else (p.winner.map WinnerM.awayOdds).getD (11/5)

/-- Build one selection from a pool prediction (lines 1062-1122): the value
bet overrides outcome and odds only when the target tier is not Tier 10 and
the value bet carries exactly the target tier. -/
def selFor (targetTier : Tier) (p : Prediction) : Selection :=
  let o0 := p.predictedOutcome
  let sport := p.sport.getD "football"
  let oo : Option String × ℚ :=
    match p.valueBet with
    | some vb =>
      if targetTier ≠ Tier.t10 ∧ vb.tier.getD Tier.t10 = targetTier then
        (some vb.outcome, vb.odds)
      else (o0, defOdds sport o0 p)
    | none => (o0, defOdds sport o0 p)
  { matchId := p.matchId, homeTeam := p.homeTeam, awayTeam := p.awayTeam,
    league := p.league, startTime := p.startTime, sport := p.sport,
    market := if sport = "football" then "1X2" else "Winner",
    outcome := oo.1, odds := oo.2, confidence := p.confidence,
    tier := (p.valueBet.map (fun vb => vb.tier.getD Tier.t10)).getD Tier.t10 }

/-- Overall accumulator tier from the legs (lines 1125-1131). -/
def accaTierOf (sels : List Selection) : Tier :=
  if sels.all (fun s => s.tier = Tier.t1) then Tier.t1
  else if sels.all (fun s => s.tier = Tier.t1 ∨ s.tier = Tier.t2) then Tier.t2
  else if sels.all (fun s => s.tier = Tier.t1 ∨ s.tier = Tier.t2 ∨ s.tier = Tier.t5) then Tier.t5
  else Tier.t10

/-- Accumulator construction from the chosen legs (lines 1055-1149). -/
def buildAcc (size : ℕ) (targetTier : Tier) (top : List Prediction) : Accumulator :=
  let sels := top.map (selFor targetTier)
  let accaOdds := (sels.map Selection.odds).prod
  let totalConfidence := (top.map confOf).sum
  let totalValue := (top.map (fun p => (p.valueBet.map ValueBet.value).getD 0)).sum
  let totalEdge := (top.map (fun p =>
    (p.valueBet.map (fun vb => vb.edge.getD 0)).getD 0)).sum
  let tier0 := accaTierOf sels
  let tier := if targetTier ≠ Tier.t10 then targetTier else tier0
  { size := size,
    tier := tier,
    totalOdds := round2 accaOdds,
    confidence := round2 (totalConfidence / top.length),
    averageValue := if 0 < totalValue then round2 (totalValue / sels.length) else 0,
    averageEdge := if 0 < totalEdge then round3 (totalEdge / sels.length) else 0,
    selections := sels,
    isPremium := decide (tier = Tier.t1 ∨ tier = Tier.t2 ∨ 10 < accaOdds) }

/-- Confidence/tier filtering of the pool (lines 1019-1030): keep entries at
or above the confidence threshold, and if a tier other than Tier 10 is
targeted and any filtered entry carries a value bet of exactly that tier,
restrict to those (otherwise keep the confidence-only pool). -/
def qualify (pool : List Prediction) (minConf : ℚ) (targetTier : Tier) : List Prediction :=
  let confident := pool.filter (fun p => minConf ≤ confOf p)
  if targetTier ≠ Tier.t10 then
    let withValue := confident.filter (fun p =>
      match p.valueBet with
      | some vb => vb.tier.getD Tier.t10 = targetTier
      | none => false)
    if withValue.isEmpty then confident else withValue
  else confident

/-- Stable descending insertion by confidence: an element is placed after
every earlier element of greater-or-equal confidence, reproducing Python's
stable `sort(key=confidence, reverse=True)`. -/
def insDesc (p : Prediction) : List Prediction → List Prediction
  | [] => [p]
  | x :: xs => if confOf p ≤ confOf x then x :: insDesc p xs else p :: x :: xs

/-- Stable descending sort by confidence (line 1033). -/
def sortDesc (l : List Prediction) : List Prediction :=
  l.foldl (fun acc p => insDesc p acc) []

/-- The first `size` qualifying legs (lines 1033-1036). -/
def topPreds (pool : List Prediction) (size : ℕ) (minConf : ℚ) (targetTier : Tier) :
    List Prediction :=
  (sortDesc (qualify pool minConf targetTier)).take size

/-- Fewer than `size` legs qualify, triggering relaxation (line 1038). -/
def shortage (pool : List Prediction) (size : ℕ) (minConf : ℚ) (targetTier : Tier) : Prop :=
  (topPreds pool size minConf targetTier).length < size

instance (pool : List Prediction) (size : ℕ) (minConf : ℚ) (tt : Tier) :
    Decidable (shortage pool size minConf tt) := by
  unfold shortage; infer_instance

/-- `generate_accumulator` (lines 1004-1155) with an explicit recursion-depth
fuel.  The relaxation ladder of the source (lines 1038-1053): a Tier 1 or
Tier 2 target falls back to Tier 5 at confidence minus 5, Tier 5 falls back
to Tier 10 at confidence minus 5, and Tier 10 retries at confidence minus 10
while the threshold exceeds 60, else returns `none`.  A successful build with
an empty leg list (only possible for size 0) is the source's caught
ZeroDivisionError, hence `none`.  `relaxFuel` below bounds the recursion
depth, and `genAccFuel_stable` shows any fuel at least that bound gives the
same result, so `genAcc` is total exactly like the source recursion. -/
def genAccFuel : ℕ → List Prediction → ℕ → ℚ → Tier → Option Accumulator
  | 0, _, _, _, _ => none
  | fuel + 1, pool, size, minConf, targetTier =>
    let top := topPreds pool size minConf targetTier
    if top.length < size then
      match targetTier with
      | Tier.t1 => genAccFuel fuel pool size (minConf - 5) Tier.t5
      | Tier.t2 => genAccFuel fuel pool size (minConf - 5) Tier.t5
      | Tier.t5 => genAccFuel fuel pool size (minConf - 5) Tier.t10
      | Tier.t10 =>
        if 60 < minConf then genAccFuel fuel pool size (minConf - 10) Tier.t10
        else none
    else if top.isEmpty then none
    else some (buildAcc size targetTier top)

/-- Tier component of the relaxation measure: two tier hops at most separate
any target from Tier 10. -/
def tierSteps : Tier → ℕ
  | Tier.t1 => 2
  | Tier.t2 => 2
  | Tier.t5 => 1
  | Tier.t10 => 0

/-- Upper bound on the relaxation recursion depth from a given target tier
and confidence threshold. -/
def relaxFuel (targetTier : Tier) (minConf : ℚ) : ℕ :=
  tierSteps targetTier + (⌈minConf⌉ - 60).toNat + 1

/-- `generate_accumulator` itself: the fuel variant run with enough fuel for
its own relaxation ladder. -/
def genAcc (pool : List Prediction) (size : ℕ) (minConf : ℚ) (targetTier : Tier) :
    Option Accumulator :=
  genAccFuel (relaxFuel targetTier minConf) pool size minConf targetTier

/-- Modelled from the spec: the relaxation ladder as section 4.6 step 3
states it (Tier 1 to Tier 2 at confidence minus 5, Tier 2 to Tier 5,
Tier 5 to Tier 10, then Tier 10 at confidence minus 10 per retry), sharing
every other part of the algorithm, for comparison against `genAccFuel`. -/
def specGenAccFuel : ℕ → List Prediction → ℕ → ℚ → Tier → Option Accumulator
  | 0, _, _, _, _ => none
  | fuel + 1, pool, size, minConf, targetTier =>
    let top := topPreds pool size minConf targetTier
    if top.length < size then
      match targetTier with
      | Tier.t1 => specGenAccFuel fuel pool size (minConf - 5) Tier.t2
      | Tier.t2 => specGenAccFuel fuel pool size (minConf - 5) Tier.t5
      | Tier.t5 => specGenAccFuel fuel pool size (minConf - 5) Tier.t10
      | Tier.t10 =>
        if 60 < minConf then specGenAccFuel fuel pool size (minConf - 10) Tier.t10
        else none
    else if top.isEmpty then none
    else some (buildAcc size targetTier top)

/-- Modelled from the spec: relaxation steps of the spec ladder. -/
def specTierSteps : Tier → ℕ
  | Tier.t1 => 3
  | Tier.t2 => 2
  | Tier.t5 => 1
  | Tier.t10 => 0

/-- Modelled from the spec: the spec ladder with enough fuel. -/
def specGenAcc (pool : List Prediction) (size : ℕ) (minConf : ℚ) (targetTier : Tier) :
    Option Accumulator :=
  specGenAccFuel (specTierSteps targetTier + (⌈minConf⌉ - 60).toNat + 1)
    pool size minConf targetTier

/-- Zero stand-in for the Poisson pmf parameter, used where a concrete input
must be evaluated and the clobbered 1X2 percentages are irrelevant. -/
def poisZero : ℚ → ℚ := fun _ => 0

/-- Concrete well-formed football match: home rank 5, away rank 10, all other
fields defaulted. -/
def matchPlain : MatchData :=
  { id := some "m0",
    homeTeam := some { name := some "H0", ranking := some 5 },
    awayTeam := some { name := some "A0", ranking := some 10 },
    startTime := some "t0", leagueName := some "L0" }

/-- Concrete football match with an out-of-range home ranking of 30 (the
source accepts any integer ranking), making the home strength negative. -/
def matchRank30 : MatchData :=
  { id := some "m1",
    homeTeam := some { name := some "H1", ranking := some 30 },
    awayTeam := some { name := some "A1", ranking := some 1 },
    startTime := some "t1", leagueName := some "L1" }

/-- Concrete basketball home team: rank 1, ratings defaulted. -/
def teamHB : Team := { name := some "HB", ranking := some 1 }

/-- Concrete basketball away team: rank 15, ratings defaulted. -/
def teamAB : Team := { name := some "AB", ranking := some 15 }

/-- Concrete basketball game: home rank 1, away rank 15, ratings defaulted,
odds defaulted (home 1.8, away 2.2). -/
def gameStrongHome : MatchData :=
  { id := some "g1",
    homeTeam := some teamHB,
    awayTeam := some teamAB,
    startTime := some "tb", leagueName := some "BLG" }

/-- Pool prediction constructor for accumulator inputs: football, predicted
home win, given confidence, given home odds, optional value bet. -/
def poolPred (i : String) (conf : ℚ) (oddsH : ℚ) (vb : Option ValueBet) : Prediction :=
  { matchId := some i, homeTeam := some ("h" ++ i), awayTeam := some ("a" ++ i),
    league := some "L", startTime := some "t", sport := some "football",
    predictedOutcome := some "H", confidence := some conf,
    valueBet := vb,
    m1x2 := some { outcome := "H", homeProb := 50, homeOdds := oddsH,
                   drawProb := 25, drawOdds := 7/2, awayProb := 25, awayOdds := 4 } }

/-- Value bet literal carrying a given tier, for accumulator pool inputs. -/
def vbTier (t : Tier) (o : ℚ) : ValueBet :=
  { outcome := "H", odds := o, value := 12, edge := some (3/20),
    tier := some t, isRecommended := true }

/-- Pool of two legs with odds 1.85 each. -/
def poolOdds185 : List Prediction :=
  [poolPred "p1" 90 (37/20) none, poolPred "p2" 90 (37/20) none]

/-- Pool with confidences 90, 60, 60. -/
def poolConf906060 : List Prediction :=
  [poolPred "q1" 90 2 none, poolPred "q2" 60 2 none, poolPred "q3" 60 2 none]

/-- Pool with two Tier 1 legs at confidence 90 and three Tier 2 legs at
confidence 82 (the relaxation-ladder scenario pool). -/
def poolLadder : List Prediction :=
  [poolPred "r1" 90 (3/2) (some (vbTier Tier.t1 (3/2))),
   poolPred "r2" 90 (3/2) (some (vbTier Tier.t1 (3/2))),
   poolPred "r3" 82 2 (some (vbTier Tier.t2 2)),
   poolPred "r4" 82 2 (some (vbTier Tier.t2 2)),
   poolPred "r5" 82 2 (some (vbTier Tier.t2 2))]

lemma round2_zero : round2 0 = 0 := by
  norm_num [round2, round_eq]

/-- Singleton pool: one football prediction at confidence 80, home odds 2. -/
def poolSingle : List Prediction := [poolPred "w" 80 2 none]

/-- The accumulator `generate_accumulator` builds from `poolSingle` at
size 1, minimum confidence 75, target Tier 10. -/
def accSingle : Accumulator :=
  { size := 1, tier := Tier.t10, totalOdds := 2, confidence := 80,
    averageValue := 0, averageEdge := 0,
    selections := [{ matchId := some "w", homeTeam := some "hw", awayTeam := some "aw",
                     league := some "L", startTime := some "t", sport := some "football",
                     market := "1X2", outcome := some "H", odds := 2,
                     confidence := some 80, tier := Tier.t10 }],
    isPremium := false }

/-- The prediction the statistical path emits for `matchPlain` with the zero
pmf stand-in (note the clobbered 1X2 percentages: home and away serialize the
pmf stand-in value, the draw serializes 15). -/
def predPlain : Prediction :=
  { matchId := some "m0", homeTeam := some "H0", awayTeam := some "A0",
    league := some "L0", startTime := some "t0", sport := some "football",
    predictedOutcome := some "H",
    confidence := some (1444/25),
    isPremium := false,
    valueBet := some { outcome := "H", odds := 2, value := 1551/100,
                       edge := some (39/500), tier := some Tier.t5,
                       isRecommended := true },
    m1x2 := some { outcome := "H", homeProb := 0, homeOdds := 2,
                   drawProb := 15, drawOdds := 7/2, awayProb := 0, awayOdds := 4 },
    winner := none,
    btts := some ("No", 50),
    overUnder := some (5/2, "Under", 50) }

/-- The fields the minimal degraded prediction itself dereferences: id, both
team names, start time, league name.  A match with all of them present can
always be answered, even when everything else fails. -/
def minFields (m : MatchData) : Bool :=
  m.id.isSome && m.startTime.isSome && m.leagueName.isSome &&
  (match m.homeTeam with | some t => t.name.isSome | none => false) &&
  (match m.awayTeam with | some t => t.name.isSome | none => false)

/-- The prediction the statistical path emits for `matchPlain` with an
arbitrary pmf parameter: identical to `predPlain` except that the clobbered
1X2 home/away percentages serialize the pmf value at the two expected-goal
figures of the match (2.756 home, 13/12 away). -/
def predPlainGen (pois : ℚ → ℚ) : Prediction :=
  { matchId := some "m0", homeTeam := some "H0", awayTeam := some "A0",
    league := some "L0", startTime := some "t0", sport := some "football",
    predictedOutcome := some "H",
    confidence := some (1444/25),
    isPremium := false,
    valueBet := some { outcome := "H", odds := 2, value := 1551/100,
                       edge := some (39/500), tier := some Tier.t5,
                       isRecommended := true },
    m1x2 := some { outcome := "H",
                   homeProb := round2 (pois (689/250) * 100), homeOdds := 2,
                   drawProb := 15, drawOdds := 7/2,
                   awayProb := round2 (pois (13/12) * 100), awayOdds := 4 },
    winner := none,
    btts := some ("No", 50),
    overUnder := some (5/2, "Under", 50) }

lemma round_mono_q {x y : ℚ} (h : x ≤ y) : round x ≤ round y := by
  rw [round_eq, round_eq]
  exact Int.floor_mono (by linarith)

lemma round2_mono {x y : ℚ} (h : x ≤ y) : round2 x ≤ round2 y := by
  unfold round2
  have h2 : ((round (x * 100) : ℤ) : ℚ) ≤ ((round (y * 100) : ℤ) : ℚ) := by
    exact_mod_cast round_mono_q (by linarith)
  linarith

lemma abs_round2_sub (x : ℚ) : |round2 x - x| ≤ 1/200 := by
  have h2 : |(round (x * 100) : ℚ) - x * 100| ≤ 1/2 := by
    rw [abs_sub_comm]; exact abs_sub_round (x * 100)
  have h3 : round2 x - x = ((round (x * 100) : ℚ) - x * 100) / 100 := by
    rw [round2]; ring
  rw [h3, abs_div, abs_of_pos (by norm_num : (0:ℚ) < 100)]
  linarith

lemma round2_nonneg {x : ℚ} (h : 0 ≤ x) : 0 ≤ round2 x := by
  have := round2_mono h
  rwa [round2_zero] at this

lemma round2_le_100 {x : ℚ} (h : x ≤ 100) : round2 x ≤ 100 := by
  have h1 := round2_mono h
  have h100 : round2 100 = 100 := by norm_num [round2, round_eq]
  linarith

lemma probOf3_H (h d a : ℚ) : probOf3 "H" h d a = h := by
  rw [probOf3, if_pos rfl]

lemma probOf3_D (h d a : ℚ) : probOf3 "D" h d a = d := by
  rw [probOf3, if_neg (by decide), if_pos rfl]

lemma probOf3_A (h d a : ℚ) : probOf3 "A" h d a = a := by
  rw [probOf3, if_neg (by decide), if_neg (by decide)]

/-- C7 counterexample: with home and draw probabilities equal and maximal
(0.4, 0.4, 0.2) the source picks "D", not "H" as the claim states. -/
theorem c7_counterexample :
    chooseOutcome (2/5) (2/5) (1/5) = "D" ∧ chooseOutcome (2/5) (2/5) (1/5) ≠ "H" := by
  have h : chooseOutcome (2/5) (2/5) (1/5) = "D" := by
    rw [chooseOutcome, if_neg (by norm_num), if_pos (by norm_num)]
  exact ⟨h, by rw [h]; decide⟩

/-- C7 amended: in both outcome strategies the chosen outcome (`chooseOutcome`,
predictor.py lines 291 and 481) always carries the maximal probability, but
ties are broken toward the LATER outcome in the order home, draw, away:
equal maximal home/draw gives "D", equal maximal draw/away gives "A", and
"H" is chosen only when home is strictly greatest. -/
theorem c7_argmax_tiebreak (h d a : ℚ) :
    probOf3 (chooseOutcome h d a) h d a = max h (max d a) ∧
    (h = d → a < d → chooseOutcome h d a = "D") ∧
    (d = a → h ≤ a → chooseOutcome h d a = "A") := by
  refine ⟨?_, ?_, ?_⟩
  · unfold chooseOutcome
    rcases lt_or_le (max d a) h with h1 | h1
    · rw [if_pos h1, probOf3_H, max_eq_left h1.le]
    · rw [if_neg (not_lt.mpr h1)]
      rcases lt_or_le a d with h2 | h2
      · rw [if_pos h2, probOf3_D, max_eq_right h1, max_eq_left h2.le]
      · rw [if_neg (not_lt.mpr h2), probOf3_A, max_eq_right h1, max_eq_right h2]
  · intro he hlt
    rw [chooseOutcome, if_neg (by rw [he]; exact not_lt.mpr (le_max_left d a)),
      if_pos hlt]
  · intro he hle
    rw [chooseOutcome,
      if_neg (not_lt.mpr (hle.trans (le_max_right d a))),
      if_neg (by rw [he]; exact lt_irrefl a)]

/-- C7 witness: the amended theorem applied at the tied input (0.4, 0.4, 0.2). -/
theorem c7_argmax_tiebreak_w :
    probOf3 (chooseOutcome (2/5) (2/5) (1/5)) (2/5) (2/5) (1/5) = max (2/5) (max (2/5) (1/5)) ∧
    chooseOutcome (2/5) (2/5) (1/5) = "D" :=
  ⟨(c7_argmax_tiebreak (2/5) (2/5) (1/5)).1,
   (c7_argmax_tiebreak (2/5) (2/5) (1/5)).2.1 rfl (by norm_num)⟩

lemma oddsOf3_H (oH oD oA : ℚ) : oddsOf3 "H" oH oD oA = oH := by
  rw [oddsOf3, if_pos rfl]

lemma oddsOf3_D (oH oD oA : ℚ) : oddsOf3 "D" oH oD oA = oD := by
  rw [oddsOf3, if_neg (by decide), if_pos rfl]

lemma oddsOf3_A (oH oD oA : ℚ) : oddsOf3 "A" oH oD oA = oA := by
  rw [oddsOf3, if_neg (by decide), if_neg (by decide)]

lemma probOf3_round2_vpct (pr : String) (h d a oH oD oA : ℚ) :
    probOf3 pr (round2 (vpct h oH)) (round2 (vpct d oD)) (round2 (vpct a oA)) =
    round2 (vpct (probOf3 pr h d a) (oddsOf3 pr oH oD oA)) := by
  unfold probOf3 oddsOf3
  split_ifs <;> rfl

/-- C2 counterexample: for the concrete basketball game `gameStrongHome`
(model home probability 186/197, home odds 1.8) the stored value is 38.86,
the raw edge times 100, while the claimed formula (edge over implied
probability times 100, rounded as stored) gives 69.95. -/
theorem c2_counterexample :
    ((basketballPredict gameStrongHome).bind Prediction.valueBet).map ValueBet.value
      = some (1943/50) ∧
    bbProbs (homeStrengthB teamHB) (awayStrengthB teamAB) = some (186/197, 11/197) ∧
    round2 (vpct (186/197) (9/5)) = 1399/20 ∧
    (1943/50 : ℚ) ≠ 1399/20 := by
  refine ⟨?_, ?_, ?_, by norm_num⟩
  · norm_num [basketballPredict, bbBody, gameStrongHome, teamHB, teamAB,
      homeStrengthB, awayStrengthB, formValueBB, bbProbs, bbVB,
      round2, round_eq]
  · norm_num [bbProbs, homeStrengthB, awayStrengthB, teamHB, teamAB, formValueBB]
  · norm_num [vpct, round2, round_eq]

/-- C2 amended: the football value-bet path stores, for the returned outcome,
exactly the claimed value formula rounded to two decimals (with value 0 when
the implied probability is not positive, i.e. negative odds), and it returns
`none` when the home odds are zero (the raised ZeroDivisionError is caught and
the whole value bet is dropped); the basketball path instead stores the raw
edge times 100, NOT divided by the implied probability, and a zero home odds
makes the whole basketball body raise. -/
theorem c2_value_formula :
    (∀ pr h d a oH oD oA vb, calcValueBet pr h d a oH oD oA = some vb →
      vb.value = round2 (vpct (probOf3 vb.outcome h d a) (oddsOf3 vb.outcome oH oD oA))) ∧
    (∀ pr h d a oD oA, calcValueBet pr h d a 0 oD oA = none) ∧
    (∀ h a oH oA vb, bbVB h a oH oA = some (some vb) →
      (vb.outcome = "H" → vb.value = round2 ((h - 1 / oH) * 100)) ∧
      (vb.outcome = "A" → vb.value = round2 ((a - 1 / oA) * 100))) ∧
    (∀ h a oA, bbVB h a 0 oA = none) := by
  refine ⟨?_, ?_, ?_, ?_⟩
  · intro pr h d a oH oD oA vb hvb
    simp only [calcValueBet] at hvb
    split_ifs at hvb
    all_goals
      first
        | exact Option.noConfusion hvb
        | (rw [Option.some.injEq] at hvb
           subst hvb
           dsimp only
           exact probOf3_round2_vpct _ h d a oH oD oA)
  · intro pr h d a oD oA
    simp [calcValueBet]
  · intro h a oH oA vb hvb
    simp only [bbVB] at hvb
    split_ifs at hvb
    all_goals
      first
        | exact Option.noConfusion hvb
        | exact Option.noConfusion (Option.some.inj hvb)
        | (rw [Option.some.injEq, Option.some.injEq] at hvb
           subst hvb
           dsimp only
           constructor <;> intro ho
           all_goals first | rfl | exact absurd ho (by decide))
  · intro h a oA
    simp [bbVB]

/-- C2 witness: the amended theorem applied to a concrete football value bet
(probabilities 0.6/0.25/0.15 at odds 2/3.5/4), the zero-odds football case,
a concrete basketball value bet, and the zero-odds basketball case. -/
theorem c2_value_formula_w :
    ({ outcome := "H", odds := 2, value := 20, edge := some (1/10),
       tier := some Tier.t5, isRecommended := true } : ValueBet).value
      = round2 (vpct (probOf3 "H" (3/5) (1/4) (3/20)) (oddsOf3 "H" 2 (7/2) 4)) ∧
    calcValueBet "H" (3/5) (1/4) (3/20) 0 (7/2) 4 = none ∧
    (({ outcome := "H", odds := 9/5, value := 361/25,
        isRecommended := true } : ValueBet).outcome = "H" →
      ({ outcome := "H", odds := 9/5, value := 361/25,
         isRecommended := true } : ValueBet).value = round2 ((7/10 - 1/(9/5)) * 100)) ∧
    bbVB (7/10) (3/10) 0 (11/5) = none := by
  refine ⟨?_, c2_value_formula.2.1 "H" (3/5) (1/4) (3/20) (7/2) 4, ?_, 
    c2_value_formula.2.2.2 (7/10) (3/10) (11/5)⟩
  · exact c2_value_formula.1 "H" (3/5) (1/4) (3/20) 2 (7/2) 4 _
      (by norm_num [calcValueBet, vpct, round2, round3, round_eq, tierFor, probOf3, oddsOf3])
  · exact (c2_value_formula.2.2.1 (7/10) (3/10) (9/5) (11/5) _
      (by norm_num [bbVB, round2, round_eq])).1

lemma ceil_sub_five (c : ℚ) : ⌈c - 5⌉ = ⌈c⌉ - 5 := by
  have h5 : (5 : ℚ) = ((5 : ℤ) : ℚ) := by norm_num
  rw [h5, Int.ceil_sub_int]

lemma ceil_sub_ten (c : ℚ) : ⌈c - 10⌉ = ⌈c⌉ - 10 := by
  have h10 : (10 : ℚ) = ((10 : ℤ) : ℚ) := by norm_num
  rw [h10, Int.ceil_sub_int]

lemma relaxFuel_step_t1 (c : ℚ) : relaxFuel Tier.t5 (c - 5) < relaxFuel Tier.t1 c := by
  simp only [relaxFuel, tierSteps, ceil_sub_five]
  omega

lemma relaxFuel_step_t2 (c : ℚ) : relaxFuel Tier.t5 (c - 5) < relaxFuel Tier.t2 c := by
  simp only [relaxFuel, tierSteps, ceil_sub_five]
  omega

lemma relaxFuel_step_t5 (c : ℚ) : relaxFuel Tier.t10 (c - 5) < relaxFuel Tier.t5 c := by
  simp only [relaxFuel, tierSteps, ceil_sub_five]
  omega

lemma relaxFuel_step_t10 (c : ℚ) (h : 60 < c) :
    relaxFuel Tier.t10 (c - 10) < relaxFuel Tier.t10 c := by
  have hc : (60 : ℤ) < ⌈c⌉ := Int.lt_ceil.mpr (by exact_mod_cast h)
  simp only [relaxFuel, tierSteps, ceil_sub_ten]
  omega

lemma genAccFuel_stable :
    ∀ (f1 f2 : ℕ) (pool : List Prediction) (size : ℕ) (conf : ℚ) (tt : Tier),
      relaxFuel tt conf ≤ f1 → relaxFuel tt conf ≤ f2 →
      genAccFuel f1 pool size conf tt = genAccFuel f2 pool size conf tt := by
  intro f1
  induction f1 using Nat.strong_induction_on with
  | _ f1 ih =>
    intro f2 pool size conf tt h1 h2
    have hpos : 1 ≤ relaxFuel tt conf := by simp [relaxFuel]
    obtain ⟨n, rfl⟩ : ∃ n, f1 = n + 1 := ⟨f1 - 1, by omega⟩
    obtain ⟨m, rfl⟩ : ∃ m, f2 = m + 1 := ⟨f2 - 1, by omega⟩
    simp only [genAccFuel]
    by_cases hsh : (topPreds pool size conf tt).length < size
    · rw [if_pos hsh, if_pos hsh]
      cases tt with
      | t1 =>
        have hd := relaxFuel_step_t1 conf
        exact ih n (by omega) m pool size (conf - 5) Tier.t5 (by omega) (by omega)
      | t2 =>
        have hd := relaxFuel_step_t2 conf
        exact ih n (by omega) m pool size (conf - 5) Tier.t5 (by omega) (by omega)
      | t5 =>
        have hd := relaxFuel_step_t5 conf
        exact ih n (by omega) m pool size (conf - 5) Tier.t10 (by omega) (by omega)
      | t10 =>
        by_cases h60 : 60 < conf
        · rw [if_pos h60, if_pos h60]
          have hd := relaxFuel_step_t10 conf h60
          exact ih n (by omega) m pool size (conf - 10) Tier.t10 (by omega) (by omega)
        · rw [if_neg h60, if_neg h60]
    · rw [if_neg hsh, if_neg hsh]

lemma genAccFuel_some :
    ∀ (fuel : ℕ) (pool : List Prediction) (size : ℕ) (conf : ℚ) (tt : Tier) (a : Accumulator),
      genAccFuel fuel pool size conf tt = some a →
      ∃ tt2 conf2,
        ¬ (topPreds pool size conf2 tt2).length < size ∧
        (topPreds pool size conf2 tt2) ≠ [] ∧
        a = buildAcc size tt2 (topPreds pool size conf2 tt2) := by
  intro fuel
  induction fuel with
  | zero => intro pool size conf tt a h; exact Option.noConfusion h
  | succ n ih =>
    intro pool size conf tt a h
    simp only [genAccFuel] at h
    by_cases hsh : (topPreds pool size conf tt).length < size
    · rw [if_pos hsh] at h
      cases tt with
      | t1 => exact ih pool size _ _ a h
      | t2 => exact ih pool size _ _ a h
      | t5 => exact ih pool size _ _ a h
      | t10 =>
        by_cases h60 : 60 < conf
        · rw [if_pos h60] at h
          exact ih pool size _ _ a h
        · rw [if_neg h60] at h
          exact Option.noConfusion h
    · rw [if_neg hsh] at h
      by_cases he : (topPreds pool size conf tt).isEmpty
      · rw [if_pos he] at h
        exact Option.noConfusion h
      · rw [if_neg he] at h
        refine ⟨tt, conf, hsh, ?_, (Option.some.inj h).symm⟩
        simpa [List.isEmpty_iff] using he

lemma selFor_confidence (tt : Tier) (p : Prediction) :
    (selFor tt p).confidence = p.confidence := rfl

lemma buildAcc_confidence (size : ℕ) (tt : Tier) (top : List Prediction) :
    (buildAcc size tt top).confidence =
      round2 (((buildAcc size tt top).selections.map
        (fun s => s.confidence.getD 0)).sum / (buildAcc size tt top).selections.length) := by
  simp only [buildAcc, List.map_map, List.length_map]
  have hmap : top.map ((fun s => Option.getD s.confidence 0) ∘ selFor tt) = top.map confOf := by
    apply List.map_congr_left
    intro p _
    rfl
  rw [hmap]

lemma buildAcc_totalOdds (size : ℕ) (tt : Tier) (top : List Prediction) :
    (buildAcc size tt top).totalOdds =
      round2 (((buildAcc size tt top).selections.map Selection.odds).prod) := rfl

lemma buildAcc_size (size : ℕ) (tt : Tier) (top : List Prediction) :
    (buildAcc size tt top).size = size := rfl

lemma buildAcc_selections_length (size : ℕ) (tt : Tier) (top : List Prediction) :
    (buildAcc size tt top).selections.length = top.length := by
  simp [buildAcc]

/-- C9 confirmed: the relaxation recursion of `generate_accumulator` is
bounded: for every pool, size, minimum confidence and target tier the
explicit bound `relaxFuel` on the recursion depth suffices, and any fuel at
or above it yields the same result, so the recursion always terminates
(Tier 1 and Tier 2 fall to Tier 5, Tier 5 to Tier 10, and Tier 10 lowers the
threshold by 10 only while it exceeds 60). -/
theorem c9_relax_terminates (pool : List Prediction) (size : ℕ) (conf : ℚ) (tt : Tier)
    (fuel : ℕ) (h : relaxFuel tt conf ≤ fuel) :
    genAccFuel fuel pool size conf tt = genAcc pool size conf tt :=
  genAccFuel_stable fuel (relaxFuel tt conf) pool size conf tt h le_rfl

/-- C9 witness: any large fuel agrees with the bounded recursion on a
concrete input. -/
theorem c9_relax_terminates_w :
    genAccFuel 1000 poolLadder 3 85 Tier.t1 = genAcc poolLadder 3 85 Tier.t1 :=
  c9_relax_terminates poolLadder 3 85 Tier.t1 1000 (by norm_num [relaxFuel, tierSteps]; omega)

/-- C3 amended: the confidence of every accumulator `generate_accumulator`
returns is the ARITHMETIC mean of its legs' confidences, rounded to two
decimals (line 1144: `total_confidence / len(top_predictions)`); no geometric
mean, no 0.95 size penalty and no cap are applied. -/
theorem c3_conf_arith_mean (pool : List Prediction) (size : ℕ) (conf : ℚ) (tt : Tier)
    (a : Accumulator) (h : genAcc pool size conf tt = some a) :
    a.confidence =
      round2 ((a.selections.map (fun s => s.confidence.getD 0)).sum / a.selections.length) := by
  obtain ⟨tt2, conf2, -, -, rfl⟩ := genAccFuel_some _ pool size conf tt a h
  exact buildAcc_confidence size tt2 _

/-- C8 amended: the stored total odds of every accumulator equal the product
of its legs' odds rounded to TWO DECIMALS (line 1143), hence within 0.005 of
the exact product but not within 1e-6 in general; the stored size equals the
number of selections. -/
theorem c8_totalodds_size (pool : List Prediction) (size : ℕ) (conf : ℚ) (tt : Tier)
    (a : Accumulator) (h : genAcc pool size conf tt = some a) :
    a.totalOdds = round2 ((a.selections.map Selection.odds).prod) ∧
    a.size = a.selections.length ∧
    |a.totalOdds - (a.selections.map Selection.odds).prod| ≤ 1/200 := by
  obtain ⟨tt2, conf2, hlen, -, rfl⟩ := genAccFuel_some _ pool size conf tt a h
  refine ⟨buildAcc_totalOdds size tt2 _, ?_, ?_⟩
  · rw [buildAcc_size, buildAcc_selections_length]
    have h1 : (topPreds pool size conf2 tt2).length ≤ size := by
      simp only [topPreds]
      exact (List.length_take_le _ _)
    omega
  · rw [buildAcc_totalOdds]
    exact abs_round2_sub _

lemma relaxFuel_t10_55 : relaxFuel Tier.t10 55 = 1 := by
  norm_num [relaxFuel, tierSteps]

lemma relaxFuel_t10_75 : relaxFuel Tier.t10 75 = 16 := by
  norm_num [relaxFuel, tierSteps]
  omega

lemma relaxFuel_t1_85 : relaxFuel Tier.t1 85 = 28 := by
  norm_num [relaxFuel, tierSteps]
  omega

lemma genAcc_poolSingle : genAcc poolSingle 1 75 Tier.t10 = some accSingle := by
  norm_num [genAcc, relaxFuel_t10_75, genAccFuel, topPreds, qualify, sortDesc, insDesc,
    confOf, buildAcc, selFor, defOdds, accaTierOf, poolSingle, poolPred, accSingle,
    round2, round_eq, List.filter]
  decide

/-- C3 counterexample: the accumulator built from legs of confidence 90, 60,
60 stores confidence 70 (the arithmetic mean), while the claimed geometric
mean with size penalty would satisfy conf^3 = 90*60*60*0.95^6, which 70
does not. -/
theorem c3_counterexample :
    (genAcc poolConf906060 3 55 Tier.t10).map Accumulator.confidence = some 70 ∧
    (genAcc poolConf906060 3 55 Tier.t10).map
      (fun a => a.selections.map (fun s => s.confidence.getD 0)) = some [90, 60, 60] ∧
    (70 : ℚ)^3 ≠ (90*60*60) * (19/20)^6 := by
  refine ⟨?_, ?_, by norm_num⟩ <;>
    norm_num [genAcc, relaxFuel_t10_55, genAccFuel, topPreds, qualify, sortDesc, insDesc,
      confOf, buildAcc, selFor, defOdds, accaTierOf, poolConf906060, poolPred,
      round2, round_eq, List.filter]

/-- C3 witness: the amended theorem applied to the singleton-pool accumulator. -/
theorem c3_conf_arith_mean_w :
    accSingle.confidence =
      round2 ((accSingle.selections.map (fun s => s.confidence.getD 0)).sum
        / accSingle.selections.length) :=
  c3_conf_arith_mean poolSingle 1 75 Tier.t10 accSingle genAcc_poolSingle

/-- C8 counterexample: two legs at odds 1.85 give the stored total odds 3.42
(the product 3.4225 rounded to two decimals), which is not within 1e-6 of the
product. -/
theorem c8_counterexample :
    (genAcc poolOdds185 2 75 Tier.t10).map Accumulator.totalOdds = some (171/50) ∧
    (genAcc poolOdds185 2 75 Tier.t10).map
      (fun a => (a.selections.map Selection.odds).prod) = some (1369/400) ∧
    ¬ (|(171/50 : ℚ) - 1369/400| ≤ 1/1000000) := by
  refine ⟨?_, ?_, by rw [abs_of_neg (by norm_num)]; norm_num⟩ <;>
    norm_num [genAcc, relaxFuel_t10_75, genAccFuel, topPreds, qualify, sortDesc, insDesc,
      confOf, buildAcc, selFor, defOdds, accaTierOf, poolOdds185, poolPred,
      round2, round_eq, List.filter]

/-- C8 witness: the amended theorem applied to the singleton-pool accumulator. -/
theorem c8_totalodds_size_w :
    accSingle.totalOdds = round2 ((accSingle.selections.map Selection.odds).prod) ∧
    accSingle.size = accSingle.selections.length ∧
    |accSingle.totalOdds - (accSingle.selections.map Selection.odds).prod| ≤ 1/200 :=
  c8_totalodds_size poolSingle 1 75 Tier.t10 accSingle genAcc_poolSingle

/-- C4 amended: when fewer than `size` predictions qualify, the relaxation
ladder of the source (lines 1042-1053) is Tier 1 OR Tier 2 -> Tier 5 directly
(minimum confidence -5; Tier 2 is never an intermediate target), then
Tier 5 -> Tier 10 (-5), then Tier 10 with confidence -10 per retry while the
threshold exceeds 60, and null otherwise; in particular a shortage at
target Tier 1 retries at TIER 5 (not Tier 2) with minimum confidence -5. -/
theorem c4_relax_ladder (pool : List Prediction) (size : ℕ) (conf : ℚ) :
    (shortage pool size conf Tier.t1 →
      genAcc pool size conf Tier.t1 = genAcc pool size (conf - 5) Tier.t5) ∧
    (shortage pool size conf Tier.t2 →
      genAcc pool size conf Tier.t2 = genAcc pool size (conf - 5) Tier.t5) ∧
    (shortage pool size conf Tier.t5 →
      genAcc pool size conf Tier.t5 = genAcc pool size (conf - 5) Tier.t10) ∧
    (shortage pool size conf Tier.t10 → 60 < conf →
      genAcc pool size conf Tier.t10 = genAcc pool size (conf - 10) Tier.t10) ∧
    (shortage pool size conf Tier.t10 → conf ≤ 60 →
      genAcc pool size conf Tier.t10 = none) := by
  refine ⟨?_, ?_, ?_, ?_, ?_⟩ <;> intro hsh <;> simp only [shortage] at hsh
  case _ =>
    show genAccFuel ((tierSteps Tier.t1 + (⌈conf⌉ - 60).toNat) + 1) pool size conf Tier.t1 = _
    simp only [genAccFuel]
    rw [if_pos hsh]
    exact genAccFuel_stable _ _ pool size (conf - 5) Tier.t5
      (by have := relaxFuel_step_t1 conf; simp only [relaxFuel] at this ⊢; omega) le_rfl
  case _ =>
    show genAccFuel ((tierSteps Tier.t2 + (⌈conf⌉ - 60).toNat) + 1) pool size conf Tier.t2 = _
    simp only [genAccFuel]
    rw [if_pos hsh]
    exact genAccFuel_stable _ _ pool size (conf - 5) Tier.t5
      (by have := relaxFuel_step_t2 conf; simp only [relaxFuel] at this ⊢; omega) le_rfl
  case _ =>
    show genAccFuel ((tierSteps Tier.t5 + (⌈conf⌉ - 60).toNat) + 1) pool size conf Tier.t5 = _
    simp only [genAccFuel]
    rw [if_pos hsh]
    exact genAccFuel_stable _ _ pool size (conf - 5) Tier.t10
      (by have := relaxFuel_step_t5 conf; simp only [relaxFuel] at this ⊢; omega) le_rfl
  case _ =>
    intro h60
    show genAccFuel ((tierSteps Tier.t10 + (⌈conf⌉ - 60).toNat) + 1) pool size conf Tier.t10 = _
    simp only [genAccFuel]
    rw [if_pos hsh, if_pos h60]
    exact genAccFuel_stable _ _ pool size (conf - 10) Tier.t10
      (by have := relaxFuel_step_t10 conf h60; simp only [relaxFuel] at this ⊢; omega) le_rfl
  case _ =>
    intro h60
    show genAccFuel ((tierSteps Tier.t10 + (⌈conf⌉ - 60).toNat) + 1) pool size conf Tier.t10 = _
    simp only [genAccFuel]
    rw [if_pos hsh, if_neg (not_lt.mpr h60)]

/-- C4 counterexample: over a pool with two Tier-1 predictions at confidence
90 and three Tier-2 predictions at confidence 82, a request of size 3 at
minimum confidence 85 targeting Tier 1 yields an accumulator of tier
Tier 5 (the code relaxed Tier 1 directly to Tier 5 at confidence 80),
while the ladder the claim states (Tier 1 to Tier 2 at confidence 80)
would find the three Tier-2 legs and return a Tier 2 accumulator. -/
theorem c4_counterexample :
    (genAcc poolLadder 3 85 Tier.t1).map Accumulator.tier = some Tier.t5 ∧
    (specGenAcc poolLadder 3 85 Tier.t1).map Accumulator.tier = some Tier.t2 ∧
    Tier.t5 ≠ Tier.t2 := by
  refine ⟨?_, ?_, by decide⟩
  · norm_num +decide [genAcc, relaxFuel_t1_85, genAccFuel, topPreds, qualify, sortDesc, insDesc,
      confOf, buildAcc, selFor, defOdds, accaTierOf, poolLadder, poolPred, vbTier,
      round2, round_eq, List.filter]
  · norm_num +decide [specGenAcc, specTierSteps, specGenAccFuel, topPreds, qualify, sortDesc,
      insDesc, confOf, buildAcc, selFor, defOdds, accaTierOf, poolLadder, poolPred, vbTier,
      round2, round_eq, List.filter]

/-- C4 witness: the amended ladder theorem applied at the scenario input
(size 3, minimum confidence 85, target Tier 1, over `poolLadder`): the first
relaxation step retries at Tier 5 with minimum confidence 80. -/
theorem c4_relax_ladder_w :
    genAcc poolLadder 3 85 Tier.t1 = genAcc poolLadder 3 80 Tier.t5 := by
  have hsh : shortage poolLadder 3 85 Tier.t1 := by
    norm_num +decide [shortage, topPreds, qualify, sortDesc, insDesc, confOf,
      poolLadder, poolPred, vbTier, List.filter]
  have h := (c4_relax_ladder poolLadder 3 85).1 hsh
  norm_num at h
  exact h

set_option maxHeartbeats 1000000 in
lemma stat1X2_pos (hs aS : ℚ) (hhs : 0 < hs) (has : 0 < aS) :
    ∃ h a, stat1X2 hs aS = some (h, 3/20, a) ∧
      preDraw hs aS = 0 ∧
      0 < h ∧ h ≤ 17/20 ∧ 0 < a ∧ a < 1 ∧
      -(1/100) ≤ h + 3/20 + a - 1 ∧ h + 3/20 + a - 1 ≤ 0 ∧
      chooseOutcome h (3/20) a ≠ "D" := by
  have hT : 0 < hs + aS := by linarith
  have hTne : hs + aS ≠ 0 := ne_of_gt hT
  simp only [stat1X2, preDraw]
  rw [if_neg hTne]
  set s := hs / (hs + aS) with hs_def
  set t := aS / (hs + aS) with ht_def
  have hst : s + t = 1 := by rw [hs_def, ht_def]; field_simp
  have hs0 : 0 < s := div_pos hhs hT
  have hs1 : s < 1 := by
    have ht0 : 0 < t := div_pos has hT
    linarith
  clear_value s t
  have hts : t = 1 - s := by linarith
  subst hts
  rw [if_pos (show (1:ℚ) - s - (1 - s) < 3/20 by ring_nf; norm_num)]
  rw [if_neg (show ¬(s + (1 - s) = 0) by ring_nf; norm_num)]
  have hh1 : s - (3/20 - (1 - s - (1 - s))) * (s / (s + (1 - s))) = 17/20 * s := by
    have h1 : s + (1 - s) = (1:ℚ) := by ring
    rw [h1, div_one]; ring
  rw [hh1]
  have hD : 0 < 17/20 * s + (1 - s) := by nlinarith
  rw [if_neg (ne_of_gt hD)]
  have ha1 : 1 - s - (3/20 - (1 - s - (1 - s))) * ((1 - s) / (17/20 * s + (1 - s))) =
      1 - s - 3/20 * ((1 - s) / (17/20 * s + (1 - s))) := by ring
  rw [ha1]
  set q := (1 - s) / (17/20 * s + (1 - s)) with hq_def
  have hDge : 17/20 ≤ 17/20 * s + (1 - s) := by nlinarith
  have hD1 : 17/20 * s + (1 - s) ≤ 1 := by nlinarith
  have hq0 : 0 < q := div_pos (by linarith) hD
  have hqge : 1 - s ≤ q := by
    rw [hq_def, le_div_iff hD]
    nlinarith
  have hqle : q - (1 - s) ≤ 3/17 * (s * (1 - s)) := by
    rw [hq_def, sub_le_iff_le_add, div_le_iff hD]
    have key : 0 ≤ (s * (1 - s)) * (3/17 * (17/20 * s + (1 - s)) - 3/20) :=
      mul_nonneg (mul_nonneg hs0.le (by linarith)) (by nlinarith)
    nlinarith [key]
  have hqle2 : q ≤ 20/17 * (1 - s) := by
    rw [hq_def, div_le_iff hD]
    nlinarith
  have hsq : s * (1 - s) ≤ 1/4 := by nlinarith [sq_nonneg (s - 1/2)]
  clear_value q
  have hlow : -(1/100) ≤ 17/20 * s + 3/20 + (1 - s - 3/20 * q) - 1 := by nlinarith
  have hupp : 17/20 * s + 3/20 + (1 - s - 3/20 * q) - 1 ≤ 0 := by nlinarith
  refine ⟨_, _, rfl, by ring, by linarith, by linarith, by nlinarith, by nlinarith,
    hlow, hupp, ?_⟩
  intro heq
  rw [chooseOutcome] at heq
  split_ifs at heq with g1 g2
  · exact absurd heq (by decide)
  · have hmax : max (3/20 : ℚ) (1 - s - 3/20 * q) = 3/20 := max_eq_left g2.le
    rw [hmax] at g1
    push_neg at g1
    linarith
  · exact absurd heq (by decide)

/-- C10 confirmed: whenever both computed strengths are positive, the draw
probability before the floor adjustment is exactly 0 (home and away shares of
the same total sum to 1), the 0.15 floor is therefore active on every such
call, the internal draw probability ends up exactly 0.15, and the predicted
outcome is never "D". -/
theorem c10_draw_floor (hs aS : ℚ) (hhs : 0 < hs) (has : 0 < aS) :
    preDraw hs aS = 0 ∧
    ∃ h a, stat1X2 hs aS = some (h, 3/20, a) ∧ chooseOutcome h (3/20) a ≠ "D" := by
  obtain ⟨h, a, he, hpre, _, _, _, _, _, _, hne⟩ := stat1X2_pos hs aS hhs has
  exact ⟨hpre, h, a, he, hne⟩

/-- C10 witness at strengths 2 and 1. -/
theorem c10_draw_floor_w :
    preDraw 2 1 = 0 ∧
    ∃ h a, stat1X2 2 1 = some (h, 3/20, a) ∧ chooseOutcome h (3/20) a ≠ "D" :=
  c10_draw_floor 2 1 (by norm_num) (by norm_num)

lemma statFb_matchPlain : statisticalFootball poisZero matchPlain = some predPlain := by
  norm_num +decide [statisticalFootball, statBody, matchPlain, predPlain, poisZero,
    homeStrengthF, awayStrengthF, stat1X2, chooseOutcome, calcValueBet,
    vpct, tierFor, probOf3, oddsOf3, bttsProbF, overProbF, round2, round3, round_eq,
    formValue, show String.toList "WDLWW" = ['W','D','L','W','W'] from rfl]

lemma statFb_matchPlain_gen (pois : ℚ → ℚ) :
    statisticalFootball pois matchPlain = some (predPlainGen pois) := by
  norm_num +decide [statisticalFootball, statBody, matchPlain, predPlainGen,
    homeStrengthF, awayStrengthF, stat1X2, chooseOutcome, calcValueBet, max_def,
    vpct, tierFor, probOf3, oddsOf3, bttsProbF, overProbF, round2, round3, round_eq,
    formValue, show String.toList "WDLWW" = ['W','D','L','W','W'] from rfl]

lemma statBody_confidence (pois : ℚ → ℚ) (m : MatchData) (ht aw : Team)
    (hht : m.homeTeam = some ht) (haw : m.awayTeam = some aw)
    (hhs : 0 < homeStrengthF ht) (has : 0 < awayStrengthF aw)
    (p : Prediction) (h : statBody pois m = some p) :
    ∃ c, p.confidence = some c ∧ 0 ≤ c ∧ c ≤ 100 := by
  obtain ⟨h1, a1, heq, _, hpos1, hle1, hpos2, hlt2, _, _, _⟩ :=
    stat1X2_pos (homeStrengthF ht) (awayStrengthF aw) hhs has
  simp only [statBody, hht, haw, heq] at h
  split at h
  all_goals try exact Option.noConfusion h
  rw [Option.some.injEq] at h
  subst h
  have hmax1 : (3/20 : ℚ) ≤ max h1 (max (3/20) a1) :=
    le_trans (le_max_left (3/20) a1) (le_max_right h1 (max (3/20) a1))
  have hmax2 : max h1 (max (3/20) a1) ≤ 1 :=
    max_le (hle1.trans (by norm_num)) (max_le (by norm_num) hlt2.le)
  exact ⟨_, rfl, round2_nonneg (by linarith), round2_le_100 (by linarith)⟩

lemma statFallback_some_confidence (m : MatchData) (p : Prediction)
    (h : statFallback m = some p) : p.confidence = some 60 := by
  simp only [statFallback] at h
  split at h
  all_goals try exact Option.noConfusion h
  split at h
  all_goals try exact Option.noConfusion h
  rw [Option.some.injEq] at h
  subst h
  rfl

/-- C5 corrected/amended: (i) every prediction the statistical football path
emits has confidence in [0,100] PROVIDED both computed team strengths are
positive (an out-of-range ranking such as 30 breaks this, see the
counterexample, and the degraded fallback emits confidence 60); (ii) the
trained-path confidence is in [0,100] for any classifier distribution;
(iii) the banding function `_calculate_confidence_score` maps exactly the
documented thresholds -- but note no serialized Prediction carries a
confidenceLevel field (the banding function is never called by the
serializers), so only the banding itself can be checked. -/
theorem c5_conf_bounds :
    (∀ (pois : ℚ → ℚ) (m : MatchData) (ht aw : Team), m.homeTeam = some ht →
      m.awayTeam = some aw → 0 < homeStrengthF ht → 0 < awayStrengthF aw →
      ∀ p, statisticalFootball pois m = some p →
        ∃ c, p.confidence = some c ∧ 0 ≤ c ∧ c ≤ 100) ∧
    (∀ h d a : ℚ, 0 ≤ h → 0 ≤ d → 0 ≤ a → h + d + a = 1 →
      0 ≤ trainedConfidence h d a ∧ trainedConfidence h d a ≤ 100) ∧
    (∀ c : ℚ, confidenceLevel c = specConfidenceLevel c) := by
  refine ⟨?_, ?_, ?_⟩
  · intro pois m ht aw hht haw hhs has p hp
    cases hb : statBody pois m with
    | some q =>
      simp only [statisticalFootball, hb, Option.some.injEq] at hp
      subst hp
      exact statBody_confidence pois m ht aw hht haw hhs has q hb
    | none =>
      simp only [statisticalFootball, hb] at hp
      exact ⟨60, statFallback_some_confidence m p hp, by norm_num, by norm_num⟩
  · intro h d a h0 d0 a0 hsum
    have hub : max h (max d a) ≤ 1 :=
      max_le (by linarith) (max_le (by linarith) (by linarith))
    have hlb : (0:ℚ) ≤ max h (max d a) := le_trans h0 (le_max_left _ _)
    unfold trainedConfidence
    exact ⟨round2_nonneg (by linarith), round2_le_100 (by linarith)⟩
  · intro c
    unfold confidenceLevel specConfidenceLevel
    split_ifs <;> first | rfl | (exfalso; linarith)

/-- C5 counterexample: the heuristic path accepts a home ranking of 30
(strength negative) and emits confidence 181.45, far above 100; no
confidenceLevel field exists on the output at all. -/
theorem c5_counterexample :
    (statisticalFootball poisZero matchRank30).bind Prediction.confidence
      = some (3629/20) ∧
    ¬ ((3629/20 : ℚ) ≤ 100) := by
  refine ⟨?_, by norm_num⟩
  norm_num +decide [statisticalFootball, statBody, matchRank30, poisZero,
    homeStrengthF, awayStrengthF, stat1X2, chooseOutcome, calcValueBet,
    vpct, tierFor, probOf3, oddsOf3, bttsProbF, overProbF, round2, round3, round_eq,
    formValue, show String.toList "WDLWW" = ['W','D','L','W','W'] from rfl]

/-- C5 witness: the amended theorem applied to the concrete match
`matchPlain`, a concrete classifier distribution and a concrete banding
input. -/
theorem c5_conf_bounds_w :
    (∃ c, predPlain.confidence = some c ∧ 0 ≤ c ∧ c ≤ 100) ∧
    (0 ≤ trainedConfidence (1/2) (1/4) (1/4) ∧ trainedConfidence (1/2) (1/4) (1/4) ≤ 100) ∧
    confidenceLevel 90 = specConfidenceLevel 90 := by
  refine ⟨c5_conf_bounds.1 poisZero matchPlain
      { name := some "H0", ranking := some 5 } { name := some "A0", ranking := some 10 }
      rfl rfl ?_ ?_ predPlain statFb_matchPlain,
    c5_conf_bounds.2.1 (1/2) (1/4) (1/4) (by norm_num) (by norm_num) (by norm_num)
      (by norm_num),
    c5_conf_bounds.2.2 90⟩
  · norm_num +decide [homeStrengthF, formValue,
      show String.toList "WDLWW" = ['W','D','L','W','W'] from rfl]
  · norm_num +decide [awayStrengthF, formValue,
      show String.toList "WDLWW" = ['W','D','L','W','W'] from rfl]

/-- C1 code bug, evaluated at the failing input `matchPlain`: the correct
score loop of `_statistical_football_prediction` (lines 537-541) overwrites
`home_prob`/`away_prob` with Poisson pmf values, so the serialized 1X2
percentages are `pmf(5, home_xg)` and `pmf(5, away_xg)` (plus the draw's 15),
NOT the outcome distribution.  For any pmf bounded by 0.2 -- which holds of
the real `poisson.pmf(5, xg)` for every rate -- the serialized percentages
sum to at most 56, nowhere near the claimed 100 plus or minus 1. -/
theorem c1_poisson_clobber (pois : ℚ → ℚ) (hb : ∀ x, 0 ≤ pois x ∧ pois x ≤ 1/5) :
    ∀ p o, statisticalFootball pois matchPlain = some p → p.m1x2 = some o →
      o.drawProb = 15 ∧
      o.homeProb + o.drawProb + o.awayProb ≤ 56 ∧
      ¬ (99 ≤ o.homeProb + o.drawProb + o.awayProb) := by
  intro p o hp ho
  rw [statFb_matchPlain_gen pois, Option.some.injEq] at hp
  subst hp
  simp only [predPlainGen, Option.some.injEq] at ho
  subst ho
  have h1 := hb (689/250)
  have h2 := hb (13/12)
  have e1 := abs_round2_sub (pois (689/250) * 100)
  have e2 := abs_round2_sub (pois (13/12) * 100)
  rw [abs_le] at e1 e2
  refine ⟨rfl, ?_, ?_⟩ <;> dsimp only <;> [skip; intro hcon] <;> nlinarith
    [h1.1, h1.2, h2.1, h2.2, e1.1, e1.2, e2.1, e2.2]

/-- C1 witness: the bug theorem applied with the zero pmf stand-in at the
serialized 1X2 record of `matchPlain`. -/
theorem c1_poisson_clobber_w :
    ({ outcome := "H", homeProb := round2 (poisZero (689/250) * 100), homeOdds := 2,
       drawProb := 15, drawOdds := 7/2,
       awayProb := round2 (poisZero (13/12) * 100), awayOdds := 4 } : OneXTwo).drawProb = 15 ∧
    ({ outcome := "H", homeProb := round2 (poisZero (689/250) * 100), homeOdds := 2,
       drawProb := 15, drawOdds := 7/2,
       awayProb := round2 (poisZero (13/12) * 100), awayOdds := 4 } : OneXTwo).homeProb +
      ({ outcome := "H", homeProb := round2 (poisZero (689/250) * 100), homeOdds := 2,
         drawProb := 15, drawOdds := 7/2,
         awayProb := round2 (poisZero (13/12) * 100), awayOdds := 4 } : OneXTwo).drawProb +
      ({ outcome := "H", homeProb := round2 (poisZero (689/250) * 100), homeOdds := 2,
         drawProb := 15, drawOdds := 7/2,
         awayProb := round2 (poisZero (13/12) * 100), awayOdds := 4 } : OneXTwo).awayProb ≤ 56 ∧
    ¬ (99 ≤ ({ outcome := "H", homeProb := round2 (poisZero (689/250) * 100), homeOdds := 2,
               drawProb := 15, drawOdds := 7/2,
               awayProb := round2 (poisZero (13/12) * 100), awayOdds := 4 } : OneXTwo).homeProb +
        ({ outcome := "H", homeProb := round2 (poisZero (689/250) * 100), homeOdds := 2,
           drawProb := 15, drawOdds := 7/2,
           awayProb := round2 (poisZero (13/12) * 100), awayOdds := 4 } : OneXTwo).drawProb +
        ({ outcome := "H", homeProb := round2 (poisZero (689/250) * 100), homeOdds := 2,
           drawProb := 15, drawOdds := 7/2,
           awayProb := round2 (poisZero (13/12) * 100), awayOdds := 4 } : OneXTwo).awayProb) :=
  c1_poisson_clobber poisZero (fun x => by norm_num [poisZero])
    (predPlainGen poisZero) _ (statFb_matchPlain_gen poisZero) rfl

lemma statFallback_isSome (m : MatchData) (h : minFields m = true) :
    (statFallback m).isSome := by
  simp only [minFields, Bool.and_eq_true] at h
  obtain ⟨⟨⟨⟨h1, h2⟩, h3⟩, h4⟩, h5⟩ := h
  obtain ⟨i, hi⟩ := Option.isSome_iff_exists.mp h1
  obtain ⟨st, hst⟩ := Option.isSome_iff_exists.mp h2
  obtain ⟨lg, hlg⟩ := Option.isSome_iff_exists.mp h3
  cases hht : m.homeTeam with
  | none => rw [hht] at h4; exact absurd h4 (by decide)
  | some ht =>
    cases haw : m.awayTeam with
    | none => rw [haw] at h5; exact absurd h5 (by decide)
    | some aw =>
      rw [hht] at h4
      rw [haw] at h5
      obtain ⟨hn, hhn⟩ := Option.isSome_iff_exists.mp h4
      obtain ⟨an, han⟩ := Option.isSome_iff_exists.mp h5
      simp [statFallback, hi, hst, hlg, hht, haw, hhn, han]

lemma statisticalFootball_isSome (pois : ℚ → ℚ) (m : MatchData)
    (h : minFields m = true) : (statisticalFootball pois m).isSome := by
  unfold statisticalFootball
  cases hb : statBody pois m with
  | none => exact statFallback_isSome m h
  | some q => simp

/-- C6 counterexample: a batch of two football matches, one well-formed and
one empty, yields only ONE prediction: for the empty match the statistical
body raises (missing homeTeam), the degraded fallback raises too (missing
id and names), and `predict_matches` catches the exception and skips the
match instead of emitting a degraded prediction; the batch itself survives. -/
theorem c6_counterexample :
    ([matchPlain, ({} : MatchData)] : List MatchData).length = 2 ∧
    (predictMatches poisZero "football" [matchPlain, {}]).length = 1 := by
  refine ⟨rfl, ?_⟩
  have hempty : statisticalFootball poisZero ({} : MatchData) = none := rfl
  simp [predictMatches, List.filterMap_cons, statFb_matchPlain, hempty]

/-- C6 amended: a football batch loses no match and aborts on none PROVIDED
every match carries the fields the degraded fallback itself dereferences
(id, both team names, start time, league name): then every match yields
exactly one Prediction (per-match failures fall back to the heuristic body
and then to the degraded minimal prediction).  A match missing one of those
fields is skipped, not replaced (see the counterexample). -/
theorem c6_batch_total (pois : ℚ → ℚ) (ms : List MatchData)
    (h : ∀ m ∈ ms, minFields m = true) :
    (predictMatches pois "football" ms).length = ms.length := by
  induction ms with
  | nil => rfl
  | cons m ms ih =>
    have hm := h m (List.mem_cons_self m ms)
    have hms : ∀ m2 ∈ ms, minFields m2 = true :=
      fun m2 hm2 => h m2 (List.mem_cons_of_mem m hm2)
    obtain ⟨p, hp⟩ := Option.isSome_iff_exists.mp (statisticalFootball_isSome pois m hm)
    have ihe := ih hms
    simp only [predictMatches, List.filterMap_cons] at ihe ⊢
    simp [hp, ihe]
    intro a ha
    exact statisticalFootball_isSome pois a (hms a ha)

/-- C6 witness: the amended theorem applied to the singleton batch holding
the well-formed `matchPlain`. -/
theorem c6_batch_total_w :
    (predictMatches poisZero "football" [matchPlain]).length
      = ([matchPlain] : List MatchData).length :=
  c6_batch_total poisZero [matchPlain] (by intro m hm; simp at hm; subst hm; decide)
